import Mathlib

set_option maxRecDepth 8192

/- Verification of the hoymiles-cloud integration core against its
natural-language specification.  The Python sources embedded here are
custom_components/hoymiles_cloud/sensor.py (value coercion utilities),
hoymiles_api.py (session manager, topology discovery, telemetry fetch)
and __init__.py (the refresh orchestrator async_update_data). -/

/-! ## Value model for loosely typed Python inputs

The coercion helpers in sensor.py accept int, float, str, bool, None.
A Python float value is modelled as the rational it represents.  The
conversions `float(str)` and `float(int)` round their exact value to
the nearest IEEE-754 binary64 float (53 significant bits, round half
to even), computed here over exact rational arithmetic.  Outside this
embedding remain: infinities, NaN and magnitudes at or beyond 2^1024
(CPython reaches them only through inputs no claim exercises, and an
Int-valued embedding cannot return the uncaught OverflowError that
`int(inf)` raises), underscore digit separators and non-ASCII digits
(treated as parse failures). -/

inductive PyVal where
  | none
  | str (s : String)
  | int (n : Int)
  | float (q : Rat)
  | bool (b : Bool)
deriving DecidableEq, Repr

/-- Truncation toward zero, the semantics of Python `int(float(...))`:
`q.num` and `q.den` are the reduced numerator and denominator, and
`Int.tdiv` is T-division (rounds toward zero). -/
def pyTrunc (q : Rat) : Int :=
  Int.tdiv q.num (q.den : Int)

/-- Python `str.strip()` (and the whitespace stripping of `float(str)`)
over the character list of the string. -/
def pyStrip (cs : List Char) : List Char :=
  ((cs.dropWhile Char.isWhitespace).reverse.dropWhile Char.isWhitespace).reverse

/-- Digits of a decimal literal folded into a natural number. -/
def natOfDigits (cs : List Char) : Nat :=
  cs.foldl (fun a c => a * 10 + (c.toNat - 48)) 0

/-- Parse an unsigned decimal mantissa (`"37"`, `"3.7"`, `"3."`,
`".5"`); anything else is a parse failure (Python raises ValueError,
callers catch it). -/
def parseMantissa (cs : List Char) : Option Rat :=
  match cs.splitOn '.' with
  | [w] =>
    if w ≠ [] ∧ w.all Char.isDigit then some (mkRat (natOfDigits w : Int) 1)
    else Option.none
  | [w, f] =>
    if (w ≠ [] ∨ f ≠ []) ∧ w.all Char.isDigit ∧ f.all Char.isDigit then
      some (mkRat ((natOfDigits w * 10 ^ f.length + natOfDigits f : Nat) : Int) (10 ^ f.length))
    else Option.none
  | _ => Option.none

/-- Parse the exponent part after e/E: an optional sign and a
nonempty digit run. -/
def parseExp (cs : List Char) : Option Int :=
  match cs with
  | '-' :: ds =>
    if ds ≠ [] ∧ ds.all Char.isDigit then some (-(natOfDigits ds : Int))
    else Option.none
  | '+' :: ds =>
    if ds ≠ [] ∧ ds.all Char.isDigit then some ((natOfDigits ds : Int))
    else Option.none
  | ds =>
    if ds ≠ [] ∧ ds.all Char.isDigit then some ((natOfDigits ds : Int))
    else Option.none

/-- Multiply a rational by a signed power of ten, exactly. -/
def scaleByPow10 (q : Rat) (e : Int) : Rat :=
  if 0 ≤ e then mkRat (q.num * (10 : Int) ^ e.toNat) q.den
  else mkRat q.num (q.den * 10 ^ (-e).toNat)

/-- Parse an unsigned float literal as `float(...)` accepts it: a
decimal mantissa with an optional e/E exponent, giving the exact
rational value of the written text. -/
def parseUnsigned (cs : List Char) : Option Rat :=
  match cs.splitOnP (fun c => c == 'e' || c == 'E') with
  | [m] => parseMantissa m
  | [m, ex] =>
    match parseMantissa m, parseExp ex with
    | some qm, some e => some (scaleByPow10 qm e)
    | _, _ => Option.none
  | _ => Option.none

/-- Floor of the base-2 logarithm of a natural number, by fuel
recursion so that proofs can evaluate it. -/
def natLog2F : Nat → Nat → Nat
  | 0, _ => 0
  | f + 1, n => if 2 ≤ n then natLog2F f (n / 2) + 1 else 0

def natLog2 (n : Nat) : Nat := natLog2F n n

/-- Decides `2 ^ e ≤ a / b` for positive `b`. -/
def pow2LeRat (e : Int) (a b : Nat) : Bool :=
  if 0 ≤ e then b * 2 ^ e.toNat ≤ a else b ≤ a * 2 ^ (-e).toNat

/-- Floor of the base-2 logarithm of the positive rational `a / b`:
the true value lies in the two-candidate window given by the integer
logarithms of numerator and denominator. -/
def floorLog2Rat (a b : Nat) : Int :=
  if pow2LeRat ((natLog2 a : Int) - (natLog2 b : Int)) a b then
    (natLog2 a : Int) - (natLog2 b : Int)
  else (natLog2 a : Int) - (natLog2 b : Int) - 1

/-- Round the positive rational `a / b` to the nearest IEEE-754
binary64 value (53 significant bits, round half to even), returned as
an exact rational.  Magnitudes below the normal range are rounded at
full 53-bit precision rather than the shorter subnormal precision;
every such value lies strictly below 1, so the integer truncation the
claims are about is unaffected. -/
def roundB64pos (a b : Nat) : Rat :=
  let e : Int := floorLog2Rat a b - 52
  let p : Nat := if 0 ≤ e then a else a * 2 ^ (-e).toNat
  let d : Nat := if 0 ≤ e then b * 2 ^ e.toNat else b
  let n : Nat := p / d
  let r : Nat := p % d
  let m : Nat :=
    if d < 2 * r then n + 1
    else if 2 * r < d then n
    else if n % 2 = 0 then n else n + 1
  if 0 ≤ e then mkRat ((m * 2 ^ e.toNat : Nat) : Int) 1
  else mkRat (m : Int) (2 ^ (-e).toNat)

/-- Round a rational to the nearest binary64 value. -/
def pyRoundB64 (q : Rat) : Rat :=
  if q.num < 0 then -(roundB64pos q.num.natAbs q.den)
  else roundB64pos q.num.natAbs q.den

/-- Magnitude strictly below 2^1024, the region this embedding models
(beyond it CPython produces an infinity). -/
def inB64Range (q : Rat) : Bool :=
  q.num.natAbs < 2 ^ 1024 * q.den

/-- Exact value of a float string: surrounding whitespace stripped,
an optional sign, then the unsigned literal. -/
def pyFloatExact (s : String) : Option Rat :=
  match pyStrip s.data with
  | '-' :: rest => (parseUnsigned rest).map (fun q => -q)
  | '+' :: rest => parseUnsigned rest
  | cs => parseUnsigned cs

/-- Model of CPython `float(s)`: the exact written value rounded to
the nearest binary64 float, Option.none for unparseable text and for
the out-of-range magnitudes this embedding does not model. -/
def pyFloatOfString (s : String) : Option Rat :=
  match pyFloatExact s with
  | Option.none => Option.none
  | some q => if inB64Range q then some (pyRoundB64 q) else Option.none

/-- Model of Python `float(value)` for the value kinds that reach it:
`Option.none` is a raised TypeError/ValueError, caught by the callers.
`float(int)` rounds to binary64 exactly as the string path does; a
Python float value and a bool already hold their exact value. -/
def pyFloat (v : PyVal) : Option Rat :=
  match v with
  | .none => Option.none
  | .str s => pyFloatOfString s
  | .int n =>
    if inB64Range (mkRat n 1) then some (pyRoundB64 (mkRat n 1))
    else Option.none
  | .float q => some q
  | .bool b => some (if b then 1 else 0)

/-- Python `isinstance(value, str) and value.strip() == ''`. -/
def isWhitespaceStr (v : PyVal) : Bool :=
  match v with
  | .str s => pyStrip s.data = []
  | _ => false

/-- sensor.py `safe_int_convert`: None, `"-"`, `""` and whitespace-only
strings give 0; booleans give 0/1; everything else goes through
`int(float(value))`, with ValueError/TypeError caught as 0.  (Python
`value == '-'` is false for every non-string value, so the guard is the
structural comparison against the two string sentinels.) -/
def safe_int_convert (v : PyVal) : Int :=
  if v = .none ∨ v = .str "-" ∨ v = .str "" then 0
  else if isWhitespaceStr v then 0
  else match v with
  | .bool b => if b then 1 else 0
  | _ =>
    match pyFloat v with
    | some q => pyTrunc q
    | Option.none => 0

/-- sensor.py `safe_float_convert`: same sentinel handling, result is
the parsed float (0.0 on unparseable input). -/
def safe_float_convert (v : PyVal) : Rat :=
  if v = .none ∨ v = .str "-" ∨ v = .str "" then 0
  else if isWhitespaceStr v then 0
  else match v with
  | .bool b => if b then 1 else 0
  | _ =>
    match pyFloat v with
    | some q => q
    | Option.none => 0

example : safe_int_convert (.str "22706.0") = 22706 := by decide
example : safe_int_convert (.str "-3.7") = -3 := by decide
example : safe_float_convert (.str " ") = 0 := by decide

/-! ## JSON payload model for hoymiles_api.py

Telemetry payloads and listing entries are Python dicts.  A dict is an
insertion-ordered association list; assignment updates a present key in
place and appends a missing one, as in CPython. -/

inductive Val where
  | vstr (s : String)
  | vint (n : Int)
  | vnull
deriving DecidableEq, Repr

abbrev Payload := List (String × Val)

def dictFind {α : Type} : List (String × α) → String → Option α
  | [], _ => Option.none
  | kv :: rest, k => if kv.1 = k then some kv.2 else dictFind rest k

def dictHas {α : Type} (p : List (String × α)) (k : String) : Bool :=
  p.any (fun kv => kv.1 = k)

/-- Python dict assignment `p[k] = v`. -/
def dictSet {α : Type} (p : List (String × α)) (k : String) (v : α) :
    List (String × α) :=
  if dictHas p k then p.map (fun kv => if kv.1 = k then (k, v) else kv)
  else p ++ [(k, v)]

def dictKeys {α : Type} (p : List (String × α)) : List String :=
  p.map (fun kv => kv.1)

/-- Python `d.get(k)`: None when the key is missing. -/
def pyGet (p : Payload) (k : String) : Val :=
  (dictFind p k).getD Val.vnull

/-- Python `str(...)` on the values that appear as identifiers. -/
def pyStr (v : Val) : String :=
  match v with
  | .vstr s => s
  | .vint n => toString n
  | .vnull => "None"

/-! ## Session state and environment (hoymiles_api.py)

A network interaction either raises (transport or JSON-parse failure,
modelled as `Except.error`) or delivers a parsed response envelope with
its status, message and the data fields each method reads.  The
environment fixes one response per endpoint for the run under study. -/

abbrev Err := String

structure ApiState where
  token : Option String
  token_expires_at : Int
  token_valid_time : Int
deriving DecidableEq, Repr

/-- `HoymilesAPI.__init__`: `_token = None`, `_token_expires_at = 0`,
`_token_valid_time = 7200`. -/
def HoymilesAPI.init : ApiState :=
  { token := Option.none, token_expires_at := 0, token_valid_time := 7200 }

/-- `is_token_expired`: `time.time() >= self._token_expires_at`. -/
def is_token_expired (st : ApiState) (now : Int) : Bool :=
  st.token_expires_at ≤ now

/-- Python truthiness of `not self._token`: true for None and for the
empty string. -/
def tokenFalsy (t : Option String) : Bool :=
  match t with
  | Option.none => true
  | some s => s = ""

/-- Parsed authentication response: `resp.get("status")`,
`resp.get("message")` and `resp.get("data", {}).get("token")` (None
when the data object carries no token field). -/
structure AuthResp where
  status : String
  message : String
  token : Option String
deriving DecidableEq, Repr

/-- Parsed single-entity response: status, message, `resp.get("data", {})`. -/
structure DataResp where
  status : String
  message : String
  data : Payload
deriving DecidableEq, Repr

/-- Parsed listing response: status, message,
`resp.get("data", {}).get("list", [])`. -/
structure ListResp where
  status : String
  message : String
  list : List Payload
deriving DecidableEq, Repr

structure Env where
  auth : Except Err AuthResp
  stationsList : Except Err ListResp
  dtuList : String → Except Err ListResp
  microList : String → Except Err ListResp
  stationData : String → Except Err DataResp
  dtuDetail : String → String → Except Err DataResp
  microDetail : String → String → Except Err DataResp

/-- Network requests issued during a run, in order. -/
inductive Event where
  | authCall
  | stationsListCall
  | dtuListCall (sid : String)
  | microListCall (sid : String)
  | stationDataCall (sid : String)
  | dtuDataCall (sid : String) (did : String)
  | microDataCall (sid : String) (did : String)
deriving DecidableEq, Repr

/-- `authenticate`: on a parsed response with `status == "0"` and
`message == "success"` it stores `data.token` (possibly None) and sets
the expiry to now + validity window, returning True; on any other
parsed response it returns False without touching the state; a raised
transport or parse error propagates, also without touching the state. -/
def authenticate (env : Env) (st : ApiState) (now : Int) :
    Except Err Bool × ApiState :=
  match env.auth with
  | .error e => (.error e, st)
  | .ok r =>
    if r.status = "0" ∧ r.message = "success" then
      (.ok true, { st with token := r.token,
                           token_expires_at := now + st.token_valid_time })
    else
      (.ok false, st)

/-- Shared prologue of every listing and fetch method:
`if not self._token: await self.authenticate()`.  The boolean result of
authenticate is ignored; a raised error propagates to the caller. -/
def authIfNoToken (env : Env) (st : ApiState) (now : Int) :
    Option Err × ApiState × List Event :=
  if tokenFalsy st.token then
    match authenticate env st now with
    | (.error e, st') => (some e, st', [Event.authCall])
    | (.ok _, st') => (Option.none, st', [Event.authCall])
  else (Option.none, st, [])

/-! ## Topology discovery and telemetry fetch operations -/

/-- `get_stations`: one stations-list request; on a success envelope it
builds the dict `str(station.get("id")) -> station.get("name")`, on any
other parsed envelope it returns the empty dict; raised errors
propagate. -/
def get_stations (env : Env) (st : ApiState) (now : Int) :
    Except Err (List (String × Val)) × ApiState × List Event :=
  match authIfNoToken env st now with
  | (some e, st', evs) => (.error e, st', evs)
  | (Option.none, st', evs) =>
    let evs := evs ++ [Event.stationsListCall]
    match env.stationsList with
    | .error e => (.error e, st', evs)
    | .ok r =>
      if r.status = "0" ∧ r.message = "success" then
        (.ok (r.list.foldl
          (fun acc station =>
            dictSet acc (pyStr (pyGet station "id")) (pyGet station "name"))
          []), st', evs)
      else (.ok [], st', evs)

/-- Entry of the discovered-device lists built by `get_dtus` and
`get_microinverters`: the dict row with keys id and name. -/
structure DevRef where
  id : String
  name : Val
deriving DecidableEq, Repr

/-- `get_dtus`: one concentrator-list request for the site; on success
every row becomes `id := str(row.get("id"))`, `name := row.get("model_no")`;
a non-success envelope yields an empty collection (the source returns an
empty dict there, which callers only iterate, so it behaves as the empty
list); raised errors propagate. -/
def get_dtus (env : Env) (st : ApiState) (now : Int) (sid : String) :
    Except Err (List DevRef) × ApiState × List Event :=
  match authIfNoToken env st now with
  | (some e, st', evs) => (.error e, st', evs)
  | (Option.none, st', evs) =>
    let evs := evs ++ [Event.dtuListCall sid]
    match env.dtuList sid with
    | .error e => (.error e, st', evs)
    | .ok r =>
      if r.status = "0" ∧ r.message = "success" then
        (.ok (r.list.map (fun d =>
          { id := pyStr (pyGet d "id"), name := pyGet d "model_no" })), st', evs)
      else (.ok [], st', evs)

/-- `get_microinverters`: same shape as `get_dtus`, the name taken from
the init_hard_no field. -/
def get_microinverters (env : Env) (st : ApiState) (now : Int) (sid : String) :
    Except Err (List DevRef) × ApiState × List Event :=
  match authIfNoToken env st now with
  | (some e, st', evs) => (.error e, st', evs)
  | (Option.none, st', evs) =>
    let evs := evs ++ [Event.microListCall sid]
    match env.microList sid with
    | .error e => (.error e, st', evs)
    | .ok r =>
      if r.status = "0" ∧ r.message = "success" then
        (.ok (r.list.map (fun d =>
          { id := pyStr (pyGet d "id"), name := pyGet d "init_hard_no" })), st', evs)
      else (.ok [], st', evs)

/-- `get_real_time_data_station`: one request; the data payload on a
success envelope, the empty payload on any other parsed envelope,
propagation of raised errors. -/
def get_real_time_data_station (env : Env) (st : ApiState) (now : Int)
    (sid : String) : Except Err Payload × ApiState × List Event :=
  match authIfNoToken env st now with
  | (some e, st', evs) => (.error e, st', evs)
  | (Option.none, st', evs) =>
    let evs := evs ++ [Event.stationDataCall sid]
    match env.stationData sid with
    | .error e => (.error e, st', evs)
    | .ok r =>
      if r.status = "0" ∧ r.message = "success" then (.ok r.data, st', evs)
      else (.ok [], st', evs)

/-- Second half of `get_real_time_data_dtu`: walk the listing rows and,
for every row whose `str(row.get("id"))` equals the requested id, assign
`warn_data` and `model_no` from that row into the detail payload. -/
def patchDtuData (did : String) (entries : List Payload) (d : Payload) :
    Payload :=
  entries.foldl
    (fun acc e =>
      if did = pyStr (pyGet e "id") then
        dictSet (dictSet acc "warn_data" (pyGet e "warn_data"))
          "model_no" (pyGet e "model_no")
      else acc)
    d

/-- `get_real_time_data_dtu`: detail request first (`dtu_data` starts as
the empty dict and is returned unchanged on a non-success envelope,
skipping the second request); then the concentrator-listing request,
whose success envelope patches warn_data and model_no by id match and
whose non-success envelope leaves the detail payload as is; a raised
error in either request propagates. -/
def get_real_time_data_dtu (env : Env) (st : ApiState) (now : Int)
    (sid : String) (did : String) :
    Except Err Payload × ApiState × List Event :=
  match authIfNoToken env st now with
  | (some e, st', evs) => (.error e, st', evs)
  | (Option.none, st', evs) =>
    let evs := evs ++ [Event.dtuDataCall sid did]
    match env.dtuDetail sid did with
    | .error e => (.error e, st', evs)
    | .ok r =>
      if r.status = "0" ∧ r.message = "success" then
        let evs := evs ++ [Event.dtuListCall sid]
        match env.dtuList sid with
        | .error e => (.error e, st', evs)
        | .ok r2 =>
          if r2.status = "0" ∧ r2.message = "success" then
            (.ok (patchDtuData did r2.list r.data), st', evs)
          else (.ok r.data, st', evs)
      else (.ok [], st', evs)

/-- `get_real_time_data_microinverter`: one request, same contract as
the station fetch. -/
def get_real_time_data_microinverter (env : Env) (st : ApiState) (now : Int)
    (sid : String) (did : String) :
    Except Err Payload × ApiState × List Event :=
  match authIfNoToken env st now with
  | (some e, st', evs) => (.error e, st', evs)
  | (Option.none, st', evs) =>
    let evs := evs ++ [Event.microDataCall sid did]
    match env.microDetail sid did with
    | .error e => (.error e, st', evs)
    | .ok r =>
      if r.status = "0" ∧ r.message = "success" then (.ok r.data, st', evs)
      else (.ok [], st', evs)

/-! ## Refresh orchestrator (__init__.py, async_update_data)

One cycle: if the token is expired, call authenticate (its boolean
result is not inspected); then walk the stations in order, fetching
site telemetry and, for every concentrator and micro-device discovered
under the station, entity telemetry, building the dict
`entity id -> {"real_time_data": payload}`.  Any raised error anywhere
in the cycle is re-raised as the cycle failure `UpdateFailed`. -/

structure SnapEntry where
  real_time_data : Payload
deriving DecidableEq, Repr

abbrev Snapshot := List (String × SnapEntry)

/-- Inner loop `for dtu_data in dtus_data` of the cycle. -/
def runDtuDevices (env : Env) (now : Int) (sid : String) :
    List DevRef → ApiState → Snapshot →
    Except Err (ApiState × Snapshot × List Event)
  | [], st, data => .ok (st, data, [])
  | d :: rest, st, data =>
    match get_real_time_data_dtu env st now sid d.id with
    | (.error e, _, _) => .error e
    | (.ok p, st', evs) =>
      match runDtuDevices env now sid rest st'
          (dictSet data d.id { real_time_data := p }) with
      | .error e => .error e
      | .ok (st2, data2, evs2) => .ok (st2, data2, evs ++ evs2)

/-- Loop `for dtu_station_id, dtus_data in dtus.items()` with its
`station_id == dtu_station_id` filter. -/
def runDtuMap (env : Env) (now : Int) (sid : String) :
    List (String × List DevRef) → ApiState → Snapshot →
    Except Err (ApiState × Snapshot × List Event)
  | [], st, data => .ok (st, data, [])
  | (k, devs) :: rest, st, data =>
    if sid = k then
      match runDtuDevices env now sid devs st data with
      | .error e => .error e
      | .ok (st', data', evs) =>
        match runDtuMap env now sid rest st' data' with
        | .error e => .error e
        | .ok (st2, data2, evs2) => .ok (st2, data2, evs ++ evs2)
    else runDtuMap env now sid rest st data

/-- Inner loop `for micro_data in microinverter_data` of the cycle. -/
def runMicroDevices (env : Env) (now : Int) (sid : String) :
    List DevRef → ApiState → Snapshot →
    Except Err (ApiState × Snapshot × List Event)
  | [], st, data => .ok (st, data, [])
  | d :: rest, st, data =>
    match get_real_time_data_microinverter env st now sid d.id with
    | (.error e, _, _) => .error e
    | (.ok p, st', evs) =>
      match runMicroDevices env now sid rest st'
          (dictSet data d.id { real_time_data := p }) with
      | .error e => .error e
      | .ok (st2, data2, evs2) => .ok (st2, data2, evs ++ evs2)

/-- Loop `for micro_station_id, microinverter_data in
microinverters.items()` with its station filter. -/
def runMicroMap (env : Env) (now : Int) (sid : String) :
    List (String × List DevRef) → ApiState → Snapshot →
    Except Err (ApiState × Snapshot × List Event)
  | [], st, data => .ok (st, data, [])
  | (k, devs) :: rest, st, data =>
    if sid = k then
      match runMicroDevices env now sid devs st data with
      | .error e => .error e
      | .ok (st', data', evs) =>
        match runMicroMap env now sid rest st' data' with
        | .error e => .error e
        | .ok (st2, data2, evs2) => .ok (st2, data2, evs ++ evs2)
    else runMicroMap env now sid rest st data

/-- Outer loop `for station_id in stations` of the cycle. -/
def runStations (env : Env) (now : Int)
    (dtus micros : List (String × List DevRef)) :
    List String → ApiState → Snapshot →
    Except Err (ApiState × Snapshot × List Event)
  | [], st, data => .ok (st, data, [])
  | sid :: rest, st, data =>
    match get_real_time_data_station env st now sid with
    | (.error e, _, _) => .error e
    | (.ok p, st1, evs1) =>
      match runDtuMap env now sid dtus st1
          (dictSet data sid { real_time_data := p }) with
      | .error e => .error e
      | .ok (st2, data2, evs2) =>
        match runMicroMap env now sid micros st2 data2 with
        | .error e => .error e
        | .ok (st3, data3, evs3) =>
          match runStations env now dtus micros rest st3 data3 with
          | .error e => .error e
          | .ok (st4, data4, evs4) =>
            .ok (st4, data4, evs1 ++ evs2 ++ evs3 ++ evs4)

/-- `async_update_data`: the refresh cycle.  A raised error becomes the
cycle failure, with the message the source formats into UpdateFailed;
otherwise the assembled snapshot is returned.  Note the source does not
inspect the boolean returned by the initial reauthentication. -/
def async_update_data (env : Env) (now : Int) (stations : List String)
    (dtus micros : List (String × List DevRef)) (st : ApiState) :
    Except Err (Snapshot × ApiState × List Event) :=
  match
    (if is_token_expired st now then
      match authenticate env st now with
      | (.error e, st') => (some e, st', [Event.authCall])
      | (.ok _, st') => (Option.none, st', [Event.authCall])
    else (Option.none, st, ([] : List Event))) with
  | (some e, _, _) => .error ("Error updating data: " ++ e)
  | (Option.none, st1, evs1) =>
    match runStations env now dtus micros stations st1 [] with
    | .error e => .error ("Error updating data: " ++ e)
    | .ok (st2, data, evs2) => .ok (data, st2, evs1 ++ evs2)

/-- Modelled from the spec: the external update coordinator (the host
platform's DataUpdateCoordinator, not part of this repository) replaces
the published snapshot with the cycle's result when the cycle succeeds
and retains the previously published snapshot when the cycle raises a
refresh failure. -/
def publish (prev : Snapshot)
    (r : Except Err (Snapshot × ApiState × List Event)) : Snapshot :=
  match r with
  | .ok x => x.1
  | .error _ => prev

/-- The orchestrator-level fetch operations of a cycle: a site
telemetry request, a (two-part) concentrator fetch, or a micro-device
fetch.  The second request inside the two-part concentrator fetch is a
listing request and is part of that one fetch operation. -/
def isFetchOp : Event → Bool
  | .stationDataCall _ => true
  | .dtuDataCall _ _ => true
  | .microDataCall _ _ => true
  | _ => false

/-! ## Concrete fixtures used by the scenario theorems -/

/-- Environment in which every endpoint answers a success envelope. -/
def okEnv : Env :=
  { auth := .ok { status := "0", message := "success", token := some "tok" }
    stationsList := .ok { status := "0", message := "success", list := [] }
    dtuList := fun _ => .ok { status := "0", message := "success", list := [] }
    microList := fun _ => .ok { status := "0", message := "success", list := [] }
    stationData := fun sid =>
      .ok { status := "0", message := "success", data := [("sid", .vstr sid)] }
    dtuDetail := fun _ did =>
      .ok { status := "0", message := "success", data := [("det", .vstr did)] }
    microDetail := fun _ did =>
      .ok { status := "0", message := "success", data := [("mic", .vstr did)] } }

/-- Environment whose authentication endpoint answers a well-formed
rejection envelope. -/
def envAuthRejected : Env :=
  { okEnv with auth := .ok { status := "1", message := "failed", token := Option.none } }

/-- Environment whose authentication endpoint raises a transport error. -/
def envAuthErr : Env :=
  { okEnv with auth := .error "boom" }

/-- Environment whose authentication endpoint answers a success
envelope whose data object carries no token field. -/
def envNoTokenSuccess : Env :=
  { okEnv with auth := .ok { status := "0", message := "success", token := Option.none } }

/-- Session state holding a live non-empty token. -/
def freshState : ApiState :=
  { token := some "tok", token_expires_at := 1000000, token_valid_time := 7200 }

/-- Session state holding a non-empty token whose expiry has passed. -/
def expiredState : ApiState :=
  { token := some "tok", token_expires_at := 0, token_valid_time := 7200 }

/-- Topology of the eight-entity scenario: two sites, one concentrator
and two micro-devices each. -/
def twoSites : List String := ["s1", "s2"]

def twoDtus : List (String × List DevRef) :=
  [("s1", [{ id := "d1", name := Val.vnull }]),
   ("s2", [{ id := "d2", name := Val.vnull }])]

def fourMicros : List (String × List DevRef) :=
  [("s1", [{ id := "m1", name := Val.vnull }, { id := "m2", name := Val.vnull }]),
   ("s2", [{ id := "m3", name := Val.vnull }, { id := "m4", name := Val.vnull }])]

/-! ## Claim theorems -/

/-- C9: for every input in the set containing None, the empty string,
the single-space string and the literal string hyphen, integer coercion
returns 0 and float coercion returns 0.0.  Both functions are total in
this embedding, which is the image of the source's catch-all handling:
no input raises. -/
theorem sentinel_inputs_coerce_to_zero :
    safe_int_convert PyVal.none = 0 ∧
    safe_int_convert (PyVal.str "") = 0 ∧
    safe_int_convert (PyVal.str " ") = 0 ∧
    safe_int_convert (PyVal.str "-") = 0 ∧
    safe_float_convert PyVal.none = 0 ∧
    safe_float_convert (PyVal.str "") = 0 ∧
    safe_float_convert (PyVal.str " ") = 0 ∧
    safe_float_convert (PyVal.str "-") = 0 := by
  decide

/-- C7: authenticate leaves the stored token and expiry unchanged
whenever it does not succeed: a well-formed non-success envelope gives
the result False with the state untouched, and a raised transport or
parse error propagates with the state untouched. -/
theorem auth_failure_leaves_state_unchanged :
    ∀ (env : Env) (st : ApiState) (now : Int),
      (∀ r, env.auth = .ok r → ¬(r.status = "0" ∧ r.message = "success") →
        authenticate env st now = (.ok false, st)) ∧
      (∀ e, env.auth = .error e → authenticate env st now = (.error e, st)) := by
  intro env st now
  constructor
  · intro r hr hs
    simp [authenticate, hr, hs]
  · intro e he
    simp [authenticate, he]

/-- Witness for C7 at a concrete rejection envelope and a concrete
transport failure. -/
theorem auth_failure_leaves_state_unchanged_witness :
    authenticate envAuthRejected expiredState 5 = (.ok false, expiredState) ∧
    authenticate envAuthErr expiredState 5 = (.error "boom", expiredState) :=
  ⟨(auth_failure_leaves_state_unchanged envAuthRejected expiredState 5).1
      { status := "1", message := "failed", token := Option.none } rfl (by decide),
   (auth_failure_leaves_state_unchanged envAuthErr expiredState 5).2 "boom" rfl⟩

/-- C8: a token obtained by a successful authentication at time T is
expired exactly at T + 7200 seconds and not yet expired at
T + 7200 - 1 seconds, the validity window being the fixed 7200-second
field of the session state. -/
theorem token_expiry_boundary :
    ∀ (env : Env) (st : ApiState) (now : Int) (r : AuthResp),
      st.token_valid_time = 7200 →
      env.auth = .ok r → r.status = "0" → r.message = "success" →
      is_token_expired (authenticate env st now).2 (now + 7200) = true ∧
      is_token_expired (authenticate env st now).2 (now + 7200 - 1) = false := by
  intro env st now r hv ha hs hm
  simp [authenticate, ha, hs, hm, is_token_expired, hv]

/-- Witness for C8 at the all-success environment, the initial session
state and T = 1000. -/
theorem token_expiry_boundary_witness :
    is_token_expired (authenticate okEnv HoymilesAPI.init 1000).2 (1000 + 7200) = true ∧
    is_token_expired (authenticate okEnv HoymilesAPI.init 1000).2 (1000 + 7200 - 1) = false :=
  token_expiry_boundary okEnv HoymilesAPI.init 1000
    { status := "0", message := "success", token := some "tok" } rfl rfl rfl rfl

lemma dictSet_of_not_has {α : Type} (p : List (String × α)) (k : String) (v : α)
    (h : dictHas p k = false) : dictSet p k v = p ++ [(k, v)] := by
  simp [dictSet, h]

/-- C5: for a concentrator whose detail response yields a payload
without the two patched keys and whose listing response holds the one
entry with the matching identifier, the two-part fetch returns exactly
the detail payload with warn_data and model_no from the listing entry
appended, every other detail field unchanged in place and value. -/
theorem dtu_merge_patches_only_two_fields :
    ∀ (env : Env) (st : ApiState) (now : Int) (sid did : String)
      (d : Payload) (row : Payload),
      tokenFalsy st.token = false →
      env.dtuDetail sid did = .ok { status := "0", message := "success", data := d } →
      env.dtuList sid = .ok { status := "0", message := "success", list := [row] } →
      pyStr (pyGet row "id") = did →
      dictHas d "warn_data" = false →
      dictHas d "model_no" = false →
      (get_real_time_data_dtu env st now sid did).1
        = .ok (d ++ [("warn_data", pyGet row "warn_data"),
                     ("model_no", pyGet row "model_no")]) := by
  intro env st now sid did d row htok hdet hlist hid hw hm
  have hpatch : patchDtuData did [row] d
      = dictSet (dictSet d "warn_data" (pyGet row "warn_data"))
          "model_no" (pyGet row "model_no") := by
    simp [patchDtuData, hid]
  have hw2 : dictHas (d ++ [("warn_data", pyGet row "warn_data")]) "model_no" = false := by
    simp [dictHas] at hm ⊢
    intro a b hab
    exact hm a b hab
  simp [get_real_time_data_dtu, authIfNoToken, htok, hdet, hlist, hpatch,
    dictSet_of_not_has _ _ _ hw, dictSet_of_not_has _ _ _ hw2]

/-- Detail payload of the concrete C5 witness run. -/
def detailC5 : Payload := [("a", Val.vstr "1"), ("b", Val.vstr "2")]

/-- Listing row of the concrete C5 witness run. -/
def rowC5 : Payload :=
  [("id", Val.vstr "d1"), ("warn_data", Val.vint 0), ("model_no", Val.vstr "HM")]

/-- Environment of the concrete C5 witness run. -/
def envC5 : Env :=
  { okEnv with
    dtuDetail := fun _ _ => .ok { status := "0", message := "success", data := detailC5 }
    dtuList := fun _ => .ok { status := "0", message := "success", list := [rowC5] } }

/-- Witness for C5: the concrete merge of a two-field detail payload
with a matching listing entry. -/
theorem dtu_merge_patches_only_two_fields_witness :
    (get_real_time_data_dtu envC5 freshState 0 "s1" "d1").1
      = .ok [("a", Val.vstr "1"), ("b", Val.vstr "2"),
             ("warn_data", Val.vint 0), ("model_no", Val.vstr "HM")] :=
  dtu_merge_patches_only_two_fields envC5 freshState 0 "s1" "d1"
    detailC5 rowC5 (by decide) rfl rfl (by decide) (by decide) (by decide)

/-- C6: on the two-site topology with one concentrator and two
micro-devices per site, one cycle against the all-success environment
returns the snapshot mapping exactly the eight entity identifiers to
their telemetry payloads, and the trace holds per site one site
telemetry request, one two-part concentrator fetch (its listing request
included in the trace) and two micro-device fetches: eight fetch
operations in all. -/
theorem cycle_fetch_count_and_snapshot_keys :
    async_update_data okEnv 0 twoSites twoDtus fourMicros freshState
      = .ok ([("s1", { real_time_data := [("sid", Val.vstr "s1")] }),
              ("d1", { real_time_data := [("det", Val.vstr "d1")] }),
              ("m1", { real_time_data := [("mic", Val.vstr "m1")] }),
              ("m2", { real_time_data := [("mic", Val.vstr "m2")] }),
              ("s2", { real_time_data := [("sid", Val.vstr "s2")] }),
              ("d2", { real_time_data := [("det", Val.vstr "d2")] }),
              ("m3", { real_time_data := [("mic", Val.vstr "m3")] }),
              ("m4", { real_time_data := [("mic", Val.vstr "m4")] })],
             freshState,
             [Event.stationDataCall "s1", Event.dtuDataCall "s1" "d1",
              Event.dtuListCall "s1", Event.microDataCall "s1" "m1",
              Event.microDataCall "s1" "m2", Event.stationDataCall "s2",
              Event.dtuDataCall "s2" "d2", Event.dtuListCall "s2",
              Event.microDataCall "s2" "m3", Event.microDataCall "s2" "m4"]) ∧
    ([Event.stationDataCall "s1", Event.dtuDataCall "s1" "d1",
      Event.dtuListCall "s1", Event.microDataCall "s1" "m1",
      Event.microDataCall "s1" "m2", Event.stationDataCall "s2",
      Event.dtuDataCall "s2" "d2", Event.dtuListCall "s2",
      Event.microDataCall "s2" "m3",
      Event.microDataCall "s2" "m4"].filter isFetchOp).length = 8 :=
  ⟨rfl, by decide⟩

/-- C1 counterexample: the token is expired at the start of the cycle
and reauthentication returns False (well-formed rejection envelope);
the source ignores that boolean, so the cycle proceeds with the stale
token, completes, is reported as a success, and a new snapshot
replacing the previously published empty one is published. -/
theorem auth_returns_false_cycle_still_publishes :
    is_token_expired expiredState 5 = true ∧
    (authenticate envAuthRejected expiredState 5).1 = .ok false ∧
    async_update_data envAuthRejected 5 ["s1"] [] [] expiredState
      = .ok ([("s1", { real_time_data := [("sid", Val.vstr "s1")] })],
             expiredState, [Event.authCall, Event.stationDataCall "s1"]) ∧
    publish [] (async_update_data envAuthRejected 5 ["s1"] [] [] expiredState)
      = [("s1", { real_time_data := [("sid", Val.vstr "s1")] })] :=
  ⟨rfl, rfl, rfl, rfl⟩

/-- C1 (amended): if, at the start of a refresh cycle, the token is
expired and reauthentication raises (transport or parse failure), the
cycle is aborted and reported as failed to the caller, no new snapshot
is published and the previously published snapshot is unchanged, for
every prior snapshot; a reauthentication that merely returns False
does not abort the cycle. -/
theorem auth_raise_aborts_cycle_keeps_snapshot :
    ∀ (env : Env) (now : Int) (stations : List String)
      (dtus micros : List (String × List DevRef)) (st : ApiState)
      (prev : Snapshot) (e : Err),
      is_token_expired st now = true →
      env.auth = .error e →
      async_update_data env now stations dtus micros st
        = .error ("Error updating data: " ++ e) ∧
      publish prev (async_update_data env now stations dtus micros st) = prev := by
  intro env now stations dtus micros st prev e hexp herr
  have h : async_update_data env now stations dtus micros st
      = .error ("Error updating data: " ++ e) := by
    simp [async_update_data, hexp, authenticate, herr]
  exact ⟨h, by simp [publish, h]⟩

/-- Witness for C1 (amended) at a concrete raising environment. -/
theorem auth_raise_aborts_cycle_keeps_snapshot_witness :
    async_update_data envAuthErr 5 ["s1"] [] [] expiredState
      = .error ("Error updating data: " ++ "boom") ∧
    publish [] (async_update_data envAuthErr 5 ["s1"] [] [] expiredState) = [] :=
  auth_raise_aborts_cycle_keeps_snapshot envAuthErr 5 ["s1"] [] [] expiredState
    [] "boom" (by decide) rfl

/-- Environment in which the telemetry request of micro-device m2
raises a transport failure and every other endpoint succeeds. -/
def envMicroDown : Env :=
  { okEnv with microDetail := fun sid did =>
      if did = "m2" then .error "connection lost" else okEnv.microDetail sid did }

/-- C2 counterexample: one micro-device fetch raises a transport
failure mid-cycle and the whole cycle aborts as failed, publishing
nothing: the snapshot visible to readers stays the previous one
(here the empty one), with no entry for any sibling entity of the
cycle. -/
theorem transport_failure_aborts_whole_cycle :
    async_update_data envMicroDown 0 twoSites twoDtus fourMicros freshState
      = .error "Error updating data: connection lost" ∧
    publish [] (async_update_data envMicroDown 0 twoSites twoDtus fourMicros freshState)
      = [] :=
  ⟨rfl, rfl⟩

/-- Environment in which the telemetry request of micro-device m2
answers a well-formed rejection envelope and every other endpoint
succeeds. -/
def envMicroRejected : Env :=
  { okEnv with microDetail := fun sid did =>
      if did = "m2" then
        Except.ok { status := "1", message := "error", data := [("x", Val.vnull)] }
      else okEnv.microDetail sid did }

/-- C2 (amended): only a failure expressed as a well-formed upstream
rejection (non-success envelope) is absorbed without aborting sibling
fetches — the rejected entity maps to an empty payload and every other
visited entity keeps its entry; a raised transport failure on a single
entity instead aborts the entire cycle with no snapshot published. -/
theorem upstream_rejection_is_isolated :
    async_update_data envMicroRejected 0 twoSites twoDtus fourMicros freshState
      = .ok ([("s1", { real_time_data := [("sid", Val.vstr "s1")] }),
              ("d1", { real_time_data := [("det", Val.vstr "d1")] }),
              ("m1", { real_time_data := [("mic", Val.vstr "m1")] }),
              ("m2", { real_time_data := [] }),
              ("s2", { real_time_data := [("sid", Val.vstr "s2")] }),
              ("d2", { real_time_data := [("det", Val.vstr "d2")] }),
              ("m3", { real_time_data := [("mic", Val.vstr "m3")] }),
              ("m4", { real_time_data := [("mic", Val.vstr "m4")] })],
             freshState,
             [Event.stationDataCall "s1", Event.dtuDataCall "s1" "d1",
              Event.dtuListCall "s1", Event.microDataCall "s1" "m1",
              Event.microDataCall "s1" "m2", Event.stationDataCall "s2",
              Event.dtuDataCall "s2" "d2", Event.dtuListCall "s2",
              Event.microDataCall "s2" "m3", Event.microDataCall "s2" "m4"]) :=
  rfl

lemma authIfNoToken_events (env : Env) (st : ApiState) (now : Int) :
    (authIfNoToken env st now).2.2
      = if tokenFalsy st.token then [Event.authCall] else [] := by
  by_cases h : tokenFalsy st.token
  · rcases hA : authenticate env st now with ⟨res, st'⟩
    cases res <;> simp [authIfNoToken, h, hA]
  · simp [authIfNoToken, h]

lemma get_stations_events (env : Env) (st : ApiState) (now : Int) :
    ∃ tail, (get_stations env st now).2.2 = (authIfNoToken env st now).2.2 ++ tail
      ∧ Event.authCall ∉ tail := by
  unfold get_stations
  rcases hP : authIfNoToken env st now with ⟨err, st', evs⟩
  cases err with
  | some e => exact ⟨[], by simp, by simp⟩
  | none =>
    refine ⟨[Event.stationsListCall], ?_, by simp⟩
    rcases hS : env.stationsList with e | r
    · simp [hS]
    · simp [hS]
      split <;> simp

lemma get_dtus_events (env : Env) (st : ApiState) (now : Int) (sid : String) :
    ∃ tail, (get_dtus env st now sid).2.2 = (authIfNoToken env st now).2.2 ++ tail
      ∧ Event.authCall ∉ tail := by
  unfold get_dtus
  rcases hP : authIfNoToken env st now with ⟨err, st', evs⟩
  cases err with
  | some e => exact ⟨[], by simp, by simp⟩
  | none =>
    refine ⟨[Event.dtuListCall sid], ?_, by simp⟩
    rcases hS : env.dtuList sid with e | r
    · simp [hS]
    · simp [hS]
      split <;> simp

lemma get_microinverters_events (env : Env) (st : ApiState) (now : Int) (sid : String) :
    ∃ tail, (get_microinverters env st now sid).2.2
      = (authIfNoToken env st now).2.2 ++ tail ∧ Event.authCall ∉ tail := by
  unfold get_microinverters
  rcases hP : authIfNoToken env st now with ⟨err, st', evs⟩
  cases err with
  | some e => exact ⟨[], by simp, by simp⟩
  | none =>
    refine ⟨[Event.microListCall sid], ?_, by simp⟩
    rcases hS : env.microList sid with e | r
    · simp [hS]
    · simp [hS]
      split <;> simp

lemma get_real_time_data_station_events (env : Env) (st : ApiState) (now : Int)
    (sid : String) :
    ∃ tail, (get_real_time_data_station env st now sid).2.2
      = (authIfNoToken env st now).2.2 ++ tail ∧ Event.authCall ∉ tail := by
  unfold get_real_time_data_station
  rcases hP : authIfNoToken env st now with ⟨err, st', evs⟩
  cases err with
  | some e => exact ⟨[], by simp, by simp⟩
  | none =>
    refine ⟨[Event.stationDataCall sid], ?_, by simp⟩
    rcases hS : env.stationData sid with e | r
    · simp [hS]
    · simp [hS]
      split <;> simp

lemma get_real_time_data_dtu_events (env : Env) (st : ApiState) (now : Int)
    (sid did : String) :
    ∃ tail, (get_real_time_data_dtu env st now sid did).2.2
      = (authIfNoToken env st now).2.2 ++ tail ∧ Event.authCall ∉ tail := by
  unfold get_real_time_data_dtu
  rcases hP : authIfNoToken env st now with ⟨err, st', evs⟩
  cases err with
  | some e => exact ⟨[], by simp, by simp⟩
  | none =>
    rcases hD : env.dtuDetail sid did with e | r
    · exact ⟨[Event.dtuDataCall sid did], by simp [hD], by simp⟩
    · by_cases hRs : r.status = "0" ∧ r.message = "success"
      · rcases hL : env.dtuList sid with e2 | r2
        · exact ⟨[Event.dtuDataCall sid did, Event.dtuListCall sid],
            by simp [hD, hRs, hL], by simp⟩
        · refine ⟨[Event.dtuDataCall sid did, Event.dtuListCall sid],
            ?_, by simp⟩
          simp [hD, hRs, hL]
          split <;> simp
      · exact ⟨[Event.dtuDataCall sid did], by simp [hD, hRs], by simp⟩

lemma get_real_time_data_microinverter_events (env : Env) (st : ApiState)
    (now : Int) (sid did : String) :
    ∃ tail, (get_real_time_data_microinverter env st now sid did).2.2
      = (authIfNoToken env st now).2.2 ++ tail ∧ Event.authCall ∉ tail := by
  unfold get_real_time_data_microinverter
  rcases hP : authIfNoToken env st now with ⟨err, st', evs⟩
  cases err with
  | some e => exact ⟨[], by simp, by simp⟩
  | none =>
    refine ⟨[Event.microDataCall sid did], ?_, by simp⟩
    rcases hS : env.microDetail sid did with e | r
    · simp [hS]
    · simp [hS]
      split <;> simp

/-- C3 (amended): each of the six topology-listing and telemetry-fetch
operations authenticates first exactly when the stored token is falsy
(None or the empty string) — not whenever is_token_expired is true.  A
data request is therefore issued without reauthentication whenever the
token is a stale non-empty string, as the counterexample shows. -/
theorem ops_authenticate_iff_token_falsy :
    ∀ (env : Env) (st : ApiState) (now : Int) (sid did : String),
      (Event.authCall ∈ (get_stations env st now).2.2
        ↔ tokenFalsy st.token = true) ∧
      (Event.authCall ∈ (get_dtus env st now sid).2.2
        ↔ tokenFalsy st.token = true) ∧
      (Event.authCall ∈ (get_microinverters env st now sid).2.2
        ↔ tokenFalsy st.token = true) ∧
      (Event.authCall ∈ (get_real_time_data_station env st now sid).2.2
        ↔ tokenFalsy st.token = true) ∧
      (Event.authCall ∈ (get_real_time_data_dtu env st now sid did).2.2
        ↔ tokenFalsy st.token = true) ∧
      (Event.authCall ∈ (get_real_time_data_microinverter env st now sid did).2.2
        ↔ tokenFalsy st.token = true) := by
  intro env st now sid did
  have hpre := authIfNoToken_events env st now
  refine ⟨?_, ?_, ?_, ?_, ?_, ?_⟩
  · obtain ⟨tail, hev, hni⟩ := get_stations_events env st now
    rw [hev, hpre]
    by_cases h : tokenFalsy st.token <;> simp [h, hni]
  · obtain ⟨tail, hev, hni⟩ := get_dtus_events env st now sid
    rw [hev, hpre]
    by_cases h : tokenFalsy st.token <;> simp [h, hni]
  · obtain ⟨tail, hev, hni⟩ := get_microinverters_events env st now sid
    rw [hev, hpre]
    by_cases h : tokenFalsy st.token <;> simp [h, hni]
  · obtain ⟨tail, hev, hni⟩ := get_real_time_data_station_events env st now sid
    rw [hev, hpre]
    by_cases h : tokenFalsy st.token <;> simp [h, hni]
  · obtain ⟨tail, hev, hni⟩ := get_real_time_data_dtu_events env st now sid did
    rw [hev, hpre]
    by_cases h : tokenFalsy st.token <;> simp [h, hni]
  · obtain ⟨tail, hev, hni⟩ :=
      get_real_time_data_microinverter_events env st now sid did
    rw [hev, hpre]
    by_cases h : tokenFalsy st.token <;> simp [h, hni]

/-- C3 counterexample: a session holding a stale non-empty token — so
is_token_expired is true — issues its data requests without any
authentication call first: the claim that every operation
authenticates whenever is_token_expired is true fails. -/
theorem expired_token_fetch_skips_reauth :
    is_token_expired expiredState 5 = true ∧
    (get_stations okEnv expiredState 5).2.2 = [Event.stationsListCall] ∧
    (get_real_time_data_microinverter okEnv expiredState 5 "s1" "m1").2.2
      = [Event.microDataCall "s1" "m1"] :=
  ⟨rfl, rfl, rfl⟩

/-- C4 counterexample: starting from the initial state, a successful
authentication whose response data carries no token field is a
reachable step; afterwards the stored token is None while
is_token_expired reports false, refuting the invariant that a null
token is always treated as expired. -/
theorem null_token_not_expired_after_tokenless_success :
    (authenticate envNoTokenSuccess HoymilesAPI.init 0).1 = .ok true ∧
    (authenticate envNoTokenSuccess HoymilesAPI.init 0).2.token = Option.none ∧
    is_token_expired (authenticate envNoTokenSuccess HoymilesAPI.init 0).2 100
      = false :=
  ⟨rfl, rfl, rfl⟩

/-- C4 (amended): is_token_expired consults only the recorded expiry
timestamp.  In the initial, never-authenticated state the token is
null and the session reports expired at every nonnegative time; but
after a successful authentication whose response data carries no token
field, the stored token is null while is_token_expired stays false at
every time before the recorded expiry. -/
theorem expiry_depends_only_on_timestamp :
    (HoymilesAPI.init.token = Option.none ∧
      ∀ now : Int, 0 ≤ now → is_token_expired HoymilesAPI.init now = true) ∧
    (∀ (env : Env) (st : ApiState) (now t : Int),
      env.auth = .ok { status := "0", message := "success", token := Option.none } →
      (authenticate env st now).2.token = Option.none ∧
      (t < now + st.token_valid_time →
        is_token_expired (authenticate env st now).2 t = false)) := by
  constructor
  · exact ⟨rfl, fun now h => by simpa [is_token_expired, HoymilesAPI.init] using h⟩
  · intro env st now t ha
    constructor
    · simp [authenticate, ha]
    · intro ht
      simp [authenticate, ha, is_token_expired]
      omega

/-- Witness for C4 (amended) at the initial state and the concrete
token-less success environment. -/
theorem expiry_depends_only_on_timestamp_witness :
    is_token_expired HoymilesAPI.init 0 = true ∧
    (authenticate envNoTokenSuccess HoymilesAPI.init 0).2.token = Option.none ∧
    is_token_expired (authenticate envNoTokenSuccess HoymilesAPI.init 0).2 50
      = false :=
  ⟨expiry_depends_only_on_timestamp.1.2 0 (by decide),
   (expiry_depends_only_on_timestamp.2 envNoTokenSuccess HoymilesAPI.init 0 50 rfl).1,
   (expiry_depends_only_on_timestamp.2 envNoTokenSuccess HoymilesAPI.init 0 50 rfl).2
     (by decide)⟩

/-- Witness for C3 (amended): at the initial state the token is falsy
and get_stations does authenticate first. -/
theorem ops_authenticate_iff_token_falsy_witness :
    Event.authCall ∈ (get_stations okEnv HoymilesAPI.init 5).2.2 :=
  (ops_authenticate_iff_token_falsy okEnv HoymilesAPI.init 5 "s1" "m1").1.mpr rfl
